import Mathlib

/-!
Verification of the fondos.gob.cl scraper (`fondos_scraper.py`, plus the
superseded stable variant in `fondos_scraper - estable.py`).

The development shallowly embeds the Python source: HTML documents become an
inductive tree, BeautifulSoup queries become pre-order searches over that tree,
Python string methods (`strip`, `split`, `replace`, `in`, `startswith`) become
executable functions over `List Char` / `String`, fallible Python code returns
`Except PyErr`, and the ambient CSV file becomes an explicit list of entries
threaded through the driver loop.
-/

set_option autoImplicit false

namespace Fondos

/-- Python exceptions that the scraper can raise or propagate. -/
inductive PyErr where
  /-- `KeyError`, e.g. from `url_element['href']` when the attribute is absent. -/
  | keyError
  /-- `IndexError`, e.g. from `fechas_split[1]` when the list is too short. -/
  | indexError
  /-- `requests.HTTPError` raised by `response.raise_for_status()`; carries the status. -/
  | transportError (status : Nat)
  /-- Any other `requests.RequestException` (connection failure etc.). -/
  | connectionError
  /-- `IOError` from the CSV writer. -/
  | ioError
  /-- `ValueError`. -/
  | valueError
deriving DecidableEq

/-- Python `s.startswith(pat)` on exploded strings: `pat` begins the list. -/
def startsWithL : List Char → List Char → Bool
  | [], _ => true
  | _ :: _, [] => false
  | p :: ps, c :: cs => p == c && startsWithL ps cs

/-- Python `pat in s` on exploded strings: `pat` occurs contiguously in the list. -/
def containsSubL (pat : List Char) : List Char → Bool
  | [] => startsWithL pat []
  | c :: cs => startsWithL pat (c :: cs) || containsSubL pat cs

/-- Python `pat in s` for `String`. -/
def pyContains (pat s : String) : Bool :=
  containsSubL pat.toList s.toList

/-- Python `s.startswith(pat)` for `String`. -/
def pyStartsWith (pat s : String) : Bool :=
  startsWithL pat.toList s.toList

/-- Python `s.split(sep)` for a one-character separator, on exploded strings.
The result is never empty: `"".split('|') == ['']`. -/
def splitCharL (sep : Char) : List Char → List (List Char)
  | [] => [[]]
  | c :: cs =>
    if c == sep then [] :: splitCharL sep cs
    else
      match splitCharL sep cs with
      | [] => [[c]]
      | h :: t => (c :: h) :: t

/-- Python `s.split(sep)` for `String`, one-character separator. -/
def pySplit (sep : Char) (s : String) : List String :=
  (splitCharL sep s.toList).map (fun l => String.mk l)

/-- Python `s.replace(pat, repl)` on exploded strings: every non-overlapping
occurrence, scanned left to right.  The `fuel` argument only forces structural
recursion; one unit is spent per character position considered, so any
`fuel ≥ s.length` computes the same function and the `fuel = 0, s ≠ []` branch
is dead code.  A zero-length pattern leaves the string unchanged, which agrees
with Python for the scraper's only such call, `alcance.replace('', '')`
(line 182). -/
def replaceFuel (pat repl : List Char) : Nat → List Char → List Char
  | _, [] => []
  | 0, s => s
  | Nat.succ n, c :: cs =>
    if pat.length != 0 && startsWithL pat (c :: cs) then
      repl ++ replaceFuel pat repl n (List.drop (pat.length - 1) cs)
    else
      c :: replaceFuel pat repl n cs

/-- Python `s.replace(pat, repl)` for `String`. -/
def pyReplace (pat repl s : String) : String :=
  String.mk (replaceFuel pat.toList repl.toList s.toList.length s.toList)

/-- The ASCII part of the whitespace set stripped by Python `str.strip()`. -/
def isSpaceChar (c : Char) : Bool :=
  c == ' ' || c == '\t' || c == '\n' || c == '\r' || c == '\x0b' || c == '\x0c'

/-- Python `s.strip()` on exploded strings: whitespace removed from both ends. -/
def trimL (s : List Char) : List Char :=
  ((s.dropWhile isSpaceChar).reverse.dropWhile isSpaceChar).reverse

/-- Python `s.strip()` for `String`. -/
def pyStrip (s : String) : String :=
  String.mk (trimL s.toList)

/-- An HTML node as BeautifulSoup exposes it to this scraper: either a text
node or an element carrying the only attributes the code ever reads
(`class`, `id`, `href`) and its children in document order. -/
inductive Html where
  | text (s : String)
  | elem (tag : String) (classes : List String) (idAttr : Option String)
      (hrefAttr : Option String) (children : List Html)

mutual

/-- The node itself followed by all of its descendants, in document
(pre-)order. -/
def nodesOf : Html → List Html
  | Html.text s => [Html.text s]
  | Html.elem t c i h ch => Html.elem t c i h ch :: nodesOfList ch

/-- All nodes of a forest, in document order. -/
def nodesOfList : List Html → List Html
  | [] => []
  | n :: ns => nodesOf n ++ nodesOfList ns

end

/-- The strict descendants of a node, in document order — the search space of
BeautifulSoup's `find` / `find_all` (the node itself is excluded). -/
def descendantsOf : Html → List Html
  | Html.text _ => []
  | Html.elem _ _ _ _ ch => nodesOfList ch

mutual

/-- BeautifulSoup's `.text` / `get_text()`: the concatenation of every
descendant string, in document order. -/
def textOf : Html → String
  | Html.text s => s
  | Html.elem _ _ _ _ ch => textOfList ch

/-- Concatenated text of a forest. -/
def textOfList : List Html → String
  | [] => ""
  | n :: ns => textOf n ++ textOfList ns

end

/-- BeautifulSoup's matching of a `class_` string filter against a
multi-valued `class` attribute: the filter matches one of the classes, or the
whole space-joined attribute value (this is how `class_='mb-4 d-block'` and
`class_='col-md-6 col-lg-3'` match). -/
def matchesClassAttr (pat : String) (classes : List String) : Bool :=
  classes.contains pat || String.intercalate (String.mk [' ']) classes == pat

/-- Does a node match a `find(tag, class_=..., id=...)` filter?  Text nodes
never match. -/
def matchesSel (tag : String) (cls : Option String) (idv : Option String) : Html → Bool
  | Html.text _ => false
  | Html.elem t classes idAttr _ _ =>
    t == tag &&
      (match cls with
       | none => true
       | some c => matchesClassAttr c classes) &&
      (match idv with
       | none => true
       | some v => idAttr == some v)

/-- BeautifulSoup `root.find(tag, class_=..., id=...)`: first matching
descendant in document order, if any. -/
def findEl (root : Html) (tag : String) (cls : Option String) (idv : Option String) :
    Option Html :=
  (descendantsOf root).find? (matchesSel tag cls idv)

/-- BeautifulSoup `root.find_all(tag, class_=...)`: all matching descendants
in document order. -/
def findAllEl (root : Html) (tag : String) (cls : Option String) : List Html :=
  (descendantsOf root).filter (matchesSel tag cls none)

/-- The empty Python string `''`. -/
def emptyStr : String := ""

def tagA : String := "a"

def tagSpan : String := "span"

def tagSmall : String := "small"

def tagH6 : String := "h6"

def tagDiv : String := "div"

def tagP : String := "p"

def clsBadge : String := "badge"

def clsTextWhite : String := "text-white"

def clsTextDark : String := "text-dark"

def clsTextUppercase : String := "text-uppercase"

def clsCardBody : String := "card-body"

def clsDescDiv : String := "mb-4 d-block"

def clsMe3 : String := "me-3"

def clsBgRosa : String := "bg-rosa"

def idPills : String := "pills-04"

def clsCardGrid : String := "col-md-6 col-lg-3"

def marcaInicio : String := "Inicio:"

def marcaFin : String := "Fin:"

def marcaCategoria : String := "Categoría:"

def schemeHttp : String := "http"

/-- The site's base origin prepended to scheme-less hrefs (line 174). -/
def baseUrl : String := "https://fondos.gob.cl"

/-- One output record of the listing-page extractor (`extract_fondo_info`'s
returned dict, lines 212–223); `fecha_extraccion` is the `datetime.now()`
timestamp, passed in as a parameter here. -/
structure Fondo where
  url : String
  estado : String
  alcance : String
  institucion : String
  nombre : String
  beneficiario : String
  inicio : String
  fin : String
  monto : String
  fecha_extraccion : String
deriving DecidableEq

/-- Python `tag['href']`: the attribute's value, or `KeyError` if absent. -/
def getAttrHref : Html → Except PyErr String
  | Html.text _ => Except.error PyErr.keyError
  | Html.elem _ _ _ none _ => Except.error PyErr.keyError
  | Html.elem _ _ _ (some h) _ => Except.ok h

/-- Lines 173–174: prepend the base origin unless the url starts with
`'http'`. -/
def normUrl (url : String) : String :=
  if !(pyStartsWith schemeHttp url) then baseUrl ++ url else url

/-- Lines 170–174: `card.find('a')`, read its `href` (KeyError when the anchor
exists but carries no href; `''` when there is no anchor), then normalize. -/
def computeUrl (card : Html) : Except PyErr String :=
  match findEl card tagA none none with
  | none => Except.ok (normUrl emptyStr)
  | some el =>
    match getAttrHref el with
    | Except.error e => Except.error e
    | Except.ok href => Except.ok (normUrl href)

/-- Lines 198–203: split the dates paragraph into `(inicio, fin)`.  When both
markers are present the text is split on `'|'`; `fechas_split[1]` raises
`IndexError` when the split produced fewer than two pieces. -/
def splitFechas (fechas : String) : Except PyErr (String × String) :=
  if pyContains marcaInicio fechas && pyContains marcaFin fechas then
    match pySplit '|' fechas with
    | [] => Except.error PyErr.indexError
    | [_] => Except.error PyErr.indexError
    | s0 :: s1 :: _ =>
      Except.ok
        (pyStrip (pyReplace marcaInicio emptyStr s0),
         pyStrip (pyReplace marcaFin emptyStr s1))
  else
    Except.ok (emptyStr, emptyStr)

/-- The `try` body of `extract_fondo_info` (lines 169–223), shared verbatim by
both scraper variants.  Every BeautifulSoup lookup and string operation is
embedded in source order. -/
def extractBody (card : Html) (now : String) : Except PyErr Fondo :=
  match computeUrl card with
  | Except.error e => Except.error e
  | Except.ok url =>
    let estado :=
      match findEl card tagSpan (some clsBadge) none with
      | some e => pyStrip (textOf e)
      | none => emptyStr
    let alcance_element :=
      match findEl card tagSpan (some clsTextWhite) none with
      | some e => some e
      | none => findEl card tagSpan (some clsTextDark) none
    let alcance0 :=
      match alcance_element with
      | some e => pyStrip (textOf e)
      | none => emptyStr
    let alcance := pyStrip (pyReplace emptyStr emptyStr alcance0)
    let institucion :=
      match findEl card tagSmall (some clsTextUppercase) none with
      | some e => pyStrip (textOf e)
      | none => emptyStr
    let nombre :=
      match findEl card tagH6 none none with
      | some e => pyStrip (textOf e)
      | none => emptyStr
    match findEl card tagDiv (some clsCardBody) none with
    | some card_body =>
      let paragraphs := findAllEl card_body tagP none
      let beneficiario :=
        match paragraphs.get? 0 with
        | some p => pyStrip (textOf p)
        | none => emptyStr
      let fechas :=
        match paragraphs.get? 1 with
        | some p => pyStrip (textOf p)
        | none => emptyStr
      match splitFechas fechas with
      | Except.error e => Except.error e
      | Except.ok (inicio, fin) =>
        let monto :=
          match paragraphs.get? 2 with
          | some p => pyStrip (textOf p)
          | none => emptyStr
        Except.ok { url, estado, alcance, institucion, nombre, beneficiario,
                    inicio, fin, monto, fecha_extraccion := now }
    | none =>
      Except.ok { url, estado, alcance, institucion, nombre,
                  beneficiario := emptyStr, inicio := emptyStr, fin := emptyStr,
                  monto := emptyStr, fecha_extraccion := now }

/-- `extract_fondo_info` of `fondos_scraper.py` (lines 143–227): the
`except ValueError` clause (lines 225–227) logs and re-raises, and every other
exception propagates, so failures of the body are passed through unchanged. -/
def extract_fondo_info (card : Html) (now : String) : Except PyErr Fondo :=
  match extractBody card now with
  | Except.ok r => Except.ok r
  | Except.error e => Except.error e

/-- `extract_fondo_info` of the stable variant (`part_000`, lines 31–99): the
same body, but `except Exception` (lines 97–99) catches every failure and
returns `None`. -/
def extract_fondo_info_estable (card : Html) (now : String) : Option Fondo :=
  match extractBody card now with
  | Except.ok r => some r
  | Except.error _ => none

/-- The three detail-page fields returned by `get_detail_info`
(lines 130–134). -/
structure DetailInfo where
  descripcion : String
  categoria : String
  web : String
deriving DecidableEq

/-- Lines 107–111: description is the first `<p>` inside the
`div.mb-4.d-block` block, or `''` when either link of the chain is absent. -/
def descripcionOf (soup : Html) : String :=
  match findEl soup tagDiv (some clsDescDiv) none with
  | some d =>
    match findEl d tagP none none with
    | some p => pyStrip (textOf p)
    | none => emptyStr
  | none => emptyStr

/-- Lines 115–121: scan the `div.me-3` blocks in document order; at the first
one whose `<small>` text contains `'Categoría:'`, read the `span.bg-rosa` text
if present and `break` (the loop stops there even when the span is absent). -/
def categoriaLoop : List Html → String
  | [] => emptyStr
  | d :: rest =>
    match findEl d tagSmall none none with
    | some small =>
      if pyContains marcaCategoria (textOf small) then
        match findEl d tagSpan (some clsBgRosa) none with
        | some sp => pyStrip (textOf sp)
        | none => emptyStr
      else categoriaLoop rest
    | none => categoriaLoop rest

/-- Python `tag.get('href', '')`: the attribute's value or `''`. -/
def getHrefDefault : Html → String
  | Html.text _ => emptyStr
  | Html.elem _ _ _ none _ => emptyStr
  | Html.elem _ _ _ (some h) _ => h

/-- Lines 124–128: first anchor's href inside the `div#pills-04` container, or
`''` when the container is absent or holds no anchors. -/
def webBasesOf (soup : Html) : String :=
  match findEl soup tagDiv none (some idPills) with
  | some d =>
    match findAllEl d tagA none with
    | [] => emptyStr
    | a :: _ => getHrefDefault a
  | none => emptyStr

/-- The parsing half of `get_detail_info` (lines 100–134), applied to a
successfully fetched detail page. -/
def detail_fields (soup : Html) : DetailInfo :=
  { descripcion := descripcionOf soup,
    categoria := categoriaLoop (findAllEl soup tagDiv (some clsMe3)),
    web := webBasesOf soup }

/-- Modelled from the spec: `response.raise_for_status()` (lines 98 and 288)
is `requests` library code outside this repository; spec §6 specifies the
transport as "raising a transport-level failure for non-2xx responses", so 2xx
succeeds and every other status raises a transport error. -/
def raise_for_status (status : Nat) : Except PyErr Unit :=
  if 200 ≤ status ∧ status ≤ 299 then Except.ok ()
  else Except.error (PyErr.transportError status)

/-- `get_detail_info` (lines 70–141).  The transport is the `fetch` oracle: a
connection failure is `Except.error`, an HTTP exchange yields the status code
and the parsed body.  The function's `except` clauses (lines 136–141) log and
re-raise, so failures pass through unchanged. -/
def get_detail_info (fetch : String → Except PyErr (Nat × Html)) (url : String) :
    Except PyErr DetailInfo :=
  match fetch url with
  | Except.error e => Except.error e
  | Except.ok (status, soup) =>
    match raise_for_status status with
    | Except.error e => Except.error e
    | Except.ok _ => Except.ok (detail_fields soup)

/-- A fully enriched record: the listing fields updated (line 300,
`fondo_info.update(detail_info)`) with the detail fields. -/
structure Registro where
  base : Fondo
  detalle : DetailInfo
deriving DecidableEq

/-- One line of `fondos.csv`: the header row or a data row with its leading
`ID` column. -/
inductive Entry where
  | header
  | row (id : Nat) (registro : Registro)
deriving DecidableEq

/-- `save_fondo_to_csv` (lines 229–263) acting on the modelled file: mode
`'w'` with a header when `file_exists` is false (truncating whatever was
there), mode `'a'` without a header otherwise; either way exactly one data row
carrying `ID = index` is written. -/
def save_fondo_to_csv (fondo : Registro) (index : Nat) (file_exists : Bool)
    (file : List Entry) : List Entry :=
  if file_exists then file ++ [Entry.row index fondo]
  else [Entry.header, Entry.row index fondo]

/-- The per-card loop of `get_fondos` (lines 294–306), threading the running
`count` and the CSV file.  `extract_fondo_info` and `get_detail_info` failures
propagate (the surrounding `except` clauses, lines 310–315, re-raise), ending
the run with the file as written so far.  The `if fondo_info:` guard is always
true on the non-raising path, since the returned dict is never empty.  The
`time.sleep` call does not affect the modelled state. -/
def get_fondos_loop (fetchDetail : String → Except PyErr (Nat × Html)) (now : String) :
    List Html → Nat → List Entry → Except PyErr Nat × List Entry
  | [], count, file => (Except.ok count, file)
  | card :: rest, count, file =>
    match extract_fondo_info card now with
    | Except.error e => (Except.error e, file)
    | Except.ok fondo_info =>
      match get_detail_info fetchDetail fondo_info.url with
      | Except.error e => (Except.error e, file)
      | Except.ok detail_info =>
        let count1 := count + 1
        let file1 :=
          save_fondo_to_csv { base := fondo_info, detalle := detail_info }
            count1 (decide (count1 > 1)) file
        get_fondos_loop fetchDetail now rest count1 file1

/-- `get_fondos` (lines 265–315): fetch the listing page, check its status,
select the fund cards (`div.col-md-6.col-lg-3`, line 292) in document order,
and run the per-card loop starting from `count = 0`. -/
def get_fondos (fetchListing : Except PyErr (Nat × Html))
    (fetchDetail : String → Except PyErr (Nat × Html)) (now : String)
    (file0 : List Entry) : Except PyErr Nat × List Entry :=
  match fetchListing with
  | Except.error e => (Except.error e, file0)
  | Except.ok (status, soup) =>
    match raise_for_status status with
    | Except.error e => (Except.error e, file0)
    | Except.ok _ =>
      get_fondos_loop fetchDetail now (findAllEl soup tagDiv (some clsCardGrid)) 0 file0

/-- The `ID` column of the modelled CSV file, in file order. -/
def idsOf (file : List Entry) : List Nat :=
  file.filterMap fun e =>
    match e with
    | Entry.header => none
    | Entry.row i _ => some i

/-! Concrete inputs used by witnesses and counterexamples. -/

/-- A fixed extraction timestamp. -/
def nowEj : String := "2023-08-01 12:00:00"

def fechasEjemplo : String := "Inicio: 2023-01-01 | Fin: 2023-06-30"

def inicioEj : String := "2023-01-01"

def finEj : String := "2023-06-30"

def tbdEjemplo : String := "TBD"

def hrefBueno : String := "/concurso/123"

def hrefMalo : String := "/concurso/999"

def urlBueno : String := "https://fondos.gob.cl/concurso/123"

def urlOtro : String := "https://other.site/x"

def estadoEj : String := "Abierto"

def nombreEj : String := "Fondo Ejemplo"

def benefEj : String := "Personas naturales"

def montoEj : String := "$1.000.000"

/-- The anchor of the well-formed example card. -/
def anchorEjemplo : Html :=
  Html.elem tagA [] none (some hrefBueno)
    [Html.elem tagSpan [clsBadge] none none [Html.text estadoEj],
     Html.elem tagH6 [] none none [Html.text nombreEj],
     Html.elem tagDiv [clsCardBody] none none
       [Html.elem tagP [] none none [Html.text benefEj],
        Html.elem tagP [] none none [Html.text fechasEjemplo],
        Html.elem tagP [] none none [Html.text montoEj]]]

/-- A well-formed listing card. -/
def cardEjemplo : Html :=
  Html.elem tagDiv [] none none [anchorEjemplo]

/-- The record `extract_fondo_info` produces from `cardEjemplo`. -/
def fondoEjemplo (now : String) : Fondo :=
  { url := urlBueno, estado := estadoEj, alcance := emptyStr,
    institucion := emptyStr, nombre := nombreEj, beneficiario := benefEj,
    inicio := inicioEj, fin := finEj, monto := montoEj,
    fecha_extraccion := now }

/-- A card whose only content is an anchor with no `href` attribute: reading
`url_element['href']` raises `KeyError`. -/
def cardAnchorSinHref : Html :=
  Html.elem tagDiv [] none none [Html.elem tagA [] none none []]

/-- A card with a well-attributed anchor and no card-body container. -/
def cardSinBody : Html :=
  Html.elem tagDiv [] none none [Html.elem tagA [] none (some hrefBueno) []]

/-- A card with no anchor at all (and no other content). -/
def cardSinAnchor : Html :=
  Html.elem tagDiv [] none none []

/-- The record `extract_fondo_info` produces from `cardSinAnchor`. -/
def fondoVacio : Fondo :=
  { url := baseUrl, estado := emptyStr, alcance := emptyStr,
    institucion := emptyStr, nombre := emptyStr, beneficiario := emptyStr,
    inicio := emptyStr, fin := emptyStr, monto := emptyStr,
    fecha_extraccion := nowEj }

/-- The `'|'` separator as a one-character string. -/
def pipeStr : String := "|"

/-- A dates text with both markers but no `'|'` separator. -/
def tSinPipe : String := "Inicio: 2023-01-01 Fin: 2023-06-30"

/-- A card whose dates paragraph carries an arbitrary text `t`. -/
def cardFechasRotas (t : String) : Html :=
  Html.elem tagDiv [] none none
    [Html.elem tagA [] none (some hrefBueno) [],
     Html.elem tagDiv [clsCardBody] none none
       [Html.elem tagP [] none none [Html.text benefEj],
        Html.elem tagP [] none none [Html.text t]]]

/-- A detail-fetch oracle that always fails with a connection error; used
where the run never reaches a detail fetch. -/
def fetchNada : String → Except PyErr (Nat × Html) :=
  fun _ => Except.error PyErr.connectionError

/-!
Helper lemmas shared between claims.
-/

/-- Appending the empty string is the identity. -/
theorem append_emptyStr (s : String) : s ++ emptyStr = s := by
  cases s with
  | mk data =>
    show String.mk (data ++ []) = String.mk data
    rw [List.append_nil]

/-- Rebuilding a string from its character list is the identity. -/
theorem mk_toList (s : String) : String.mk s.toList = s := by
  cases s
  rfl

/-- Splitting on a character that does not occur returns the whole list as
the single piece. -/
theorem splitCharL_no_sep (c : Char) :
    ∀ l : List Char, containsSubL [c] l = false → splitCharL c l = [l] := by
  intro l
  induction l with
  | nil => intro _; rfl
  | cons x xs ih =>
    intro h
    unfold containsSubL at h
    simp only [startsWithL, Bool.and_true, Bool.or_eq_false_iff] at h
    have hxc : (x == c) = false := by
      cases hcx : x == c
      · rfl
      · have hx : x = c := eq_of_beq hcx
        subst hx
        simp at h
    unfold splitCharL
    rw [hxc]
    simp only [Bool.false_eq_true, if_false, ih h.2]

/-- Python `t.split('|')` is the singleton `[t]` when `t` has no pipe. -/
theorem pySplit_no_pipe (t : String) (h : pyContains pipeStr t = false) :
    pySplit '|' t = [t] := by
  have h' : containsSubL ['|'] t.toList = false := h
  unfold pySplit
  rw [splitCharL_no_sep '|' t.toList h']
  simp only [List.map]
  rw [mk_toList]

/-- On every input, `extract_fondo_info` of `fondos_scraper.py` agrees with
its `try` body: the `except ValueError` clause re-raises. -/
theorem extract_eq_body (card : Html) (now : String) :
    extract_fondo_info card now = extractBody card now := by
  unfold extract_fondo_info
  cases extractBody card now <;> rfl

/-- The `URL` field of a successfully extracted record is whatever
`computeUrl` produced. -/
theorem extractBody_url (card : Html) (now u : String) (r : Fondo)
    (hc : computeUrl card = Except.ok u)
    (hr : extractBody card now = Except.ok r) : r.url = u := by
  unfold extractBody at hr
  rw [hc] at hr
  dsimp only at hr
  cases hcb : findEl card tagDiv (some clsCardBody) none with
  | none =>
    rw [hcb] at hr
    simp only [Except.ok.injEq] at hr
    subst hr
    rfl
  | some cb =>
    rw [hcb] at hr
    dsimp only at hr
    generalize hsf :
      splitFechas
        (match (findAllEl cb tagP none).get? 1 with
         | some p => pyStrip (textOf p)
         | none => emptyStr) = sf at hr
    cases sf with
    | error e => exact absurd hr (by simp)
    | ok p =>
      obtain ⟨i, f⟩ := p
      simp only [Except.ok.injEq] at hr
      subst hr
      rfl

/-- When the card-body container is absent (and the url lookup succeeded),
the body returns a record whose positional fields are all empty. -/
theorem extractBody_sin_card_body (card : Html) (now u : String)
    (hc : computeUrl card = Except.ok u)
    (hcb : findEl card tagDiv (some clsCardBody) none = none) :
    ∃ r : Fondo, extractBody card now = Except.ok r ∧ r.url = u ∧
      r.beneficiario = emptyStr ∧ r.inicio = emptyStr ∧ r.fin = emptyStr ∧
      r.monto = emptyStr := by
  unfold extractBody
  rw [hc]
  dsimp only
  rw [hcb]
  exact ⟨_, rfl, rfl, rfl, rfl, rfl, rfl⟩

/-- The predicate the category scan tests on each `div.me-3` block: its
`<small>` exists and its text contains `'Categoría:'`. -/
def catPred (d : Html) : Bool :=
  match findEl d tagSmall none none with
  | some small => pyContains marcaCategoria (textOf small)
  | none => false

/-- What the category scan reads off the selected block: the `span.bg-rosa`
text, or `''` when that span is absent. -/
def catRead (d : Html) : String :=
  match findEl d tagSpan (some clsBgRosa) none with
  | some sp => pyStrip (textOf sp)
  | none => emptyStr

/-- The category loop selects the first block satisfying `catPred` (document
order), reads it with `catRead`, and ignores everything after it. -/
theorem categoriaLoop_eq_find :
    ∀ l : List Html,
      categoriaLoop l =
        match l.find? catPred with
        | none => emptyStr
        | some d => catRead d := by
  intro l
  induction l with
  | nil => rfl
  | cons d rest ih =>
    unfold categoriaLoop
    rw [List.find?_cons]
    cases hs : findEl d tagSmall none none with
    | none => simp [catPred, hs, ih]
    | some small =>
      cases hc : pyContains marcaCategoria (textOf small) with
      | false => simp [catPred, hs, hc, ih]
      | true => simp [catPred, catRead, hs, hc]

/-- An empty detail page: no description block, no meta blocks, no bases
container. -/
def paginaVacia : Html :=
  Html.elem tagDiv [] none none []

/-- The normalized url of `cardMalo`. -/
def urlMalo : String := "https://fondos.gob.cl/concurso/999"

/-- A body-less but extractable card whose detail url draws an HTTP 500. -/
def cardMalo : Html :=
  Html.elem tagDiv [] none none [Html.elem tagA [] none (some hrefMalo) []]

/-- The record `extract_fondo_info` produces from `cardMalo`. -/
def fondoMalo : Fondo :=
  { url := urlMalo, estado := emptyStr, alcance := emptyStr,
    institucion := emptyStr, nombre := emptyStr, beneficiario := emptyStr,
    inicio := emptyStr, fin := emptyStr, monto := emptyStr,
    fecha_extraccion := nowEj }

/-- A detail transport oracle: `urlBueno` answers HTTP 200, every other url
answers HTTP 500. -/
def fetchDemo : String → Except PyErr (Nat × Html) :=
  fun u =>
    if u == urlBueno then Except.ok (200, paginaVacia)
    else Except.ok (500, paginaVacia)

/-- Appending one data row appends its id to the `ID` column. -/
theorem idsOf_append (f : List Entry) (r : Registro) (i : Nat) :
    idsOf (f ++ [Entry.row i r]) = idsOf f ++ [i] := by
  simp [idsOf, List.filterMap_append]

/-- Loop invariant for C4: starting from a file whose `ID` column is
`1, …, count`, the driver loop always leaves an `ID` column of the form
`1, …, m`. -/
theorem get_fondos_loop_ids
    (fetchDetail : String → Except PyErr (Nat × Html)) (now : String) :
    ∀ (cards : List Html) (count : Nat) (file : List Entry),
      idsOf file = List.range' 1 count →
      ∃ m : Nat,
        idsOf (get_fondos_loop fetchDetail now cards count file).2 =
          List.range' 1 m := by
  intro cards
  induction cards with
  | nil => exact fun count file h => ⟨count, h⟩
  | cons card rest ih =>
    intro count file h
    simp only [get_fondos_loop]
    cases hx : extract_fondo_info card now with
    | error e =>
      dsimp only
      exact ⟨count, h⟩
    | ok fondo =>
      dsimp only
      cases hd : get_detail_info fetchDetail fondo.url with
      | error e =>
        dsimp only
        exact ⟨count, h⟩
      | ok det =>
        dsimp only
        apply ih
        cases count with
        | zero => rfl
        | succ n =>
          have hb : decide (n + 1 + 1 > 1) = true := by simp
          rw [hb]
          show idsOf (file ++ [Entry.row (n + 1 + 1) _]) =
            List.range' 1 (n + 1 + 1)
          rw [idsOf_append, h]
          have hc2 : List.range' 1 (n + 1 + 1) = List.range' 1 (n + 1) ++ [n + 1 + 1] := by
            rw [List.range'_concat]
            have : 1 + 1 * (n + 1) = n + 1 + 1 := by ring
            rw [this]
          rw [hc2]

/-!
Claims.  Each claim of the specification gets exactly one theorem below.
-/

/-- C6: the first `save_fondo_to_csv` call (with `file_exists = False`) leaves
the file holding exactly a header row plus the one data row, and a second call
(with `file_exists = True`) appends exactly one more data row with no second
header. -/
theorem C6_incremental_header :
    ∀ (r1 r2 : Registro) (i1 i2 : Nat) (f0 : List Entry),
      save_fondo_to_csv r1 i1 false f0 = [Entry.header, Entry.row i1 r1] ∧
      save_fondo_to_csv r2 i2 true (save_fondo_to_csv r1 i1 false f0) =
        [Entry.header, Entry.row i1 r1, Entry.row i2 r2] :=
  fun _ _ _ _ _ => ⟨rfl, rfl⟩

/-- C5: an href that does not start with `http` gets the base origin
prepended, an href that does start with it is returned unchanged (so
`/concurso/123` becomes `https://fondos.gob.cl/concurso/123` while
`https://other.site/x` is untouched), and the url `extract_fondo_info`
computes for a card whose first anchor carries an href is exactly the
normalization of that href. -/
theorem C5_url_normalization :
    (∀ href : String, pyStartsWith schemeHttp href = false →
      normUrl href = baseUrl ++ href) ∧
    (∀ href : String, pyStartsWith schemeHttp href = true →
      normUrl href = href) ∧
    normUrl hrefBueno = urlBueno ∧
    normUrl urlOtro = urlOtro ∧
    (∀ (card el : Html) (href : String),
      findEl card tagA none none = some el →
      getAttrHref el = Except.ok href →
      computeUrl card = Except.ok (normUrl href)) := by
  refine ⟨fun href h => ?_, fun href h => ?_, rfl, rfl,
    fun card el href h1 h2 => ?_⟩
  · simp [normUrl, h]
  · simp [normUrl, h]
  · simp [computeUrl, h1, h2]

/-- C5 witness: the two spec examples, and the connection to `computeUrl` on
the concrete example card. -/
theorem C5_url_normalization_witness :
    normUrl hrefBueno = baseUrl ++ hrefBueno ∧
    normUrl urlOtro = urlOtro ∧
    computeUrl cardEjemplo = Except.ok (normUrl hrefBueno) :=
  ⟨C5_url_normalization.1 hrefBueno (by decide),
   C5_url_normalization.2.1 urlOtro (by decide),
   C5_url_normalization.2.2.2.2 cardEjemplo anchorEjemplo hrefBueno rfl rfl⟩

/-- C2: the dates paragraph `"Inicio: 2023-01-01 | Fin: 2023-06-30"` yields
start `"2023-01-01"` and end `"2023-06-30"` — both at the level of the date
split and through a full `extract_fondo_info` run on a well-formed card — and
any dates text in which the markers `Inicio:` and `Fin:` are not both present
yields empty start and end. -/
theorem C2_date_splitting :
    splitFechas fechasEjemplo = Except.ok ⟨inicioEj, finEj⟩ ∧
    (∀ now : String,
      extract_fondo_info cardEjemplo now = Except.ok (fondoEjemplo now)) ∧
    (∀ t : String,
      ¬(pyContains marcaInicio t = true ∧ pyContains marcaFin t = true) →
      splitFechas t = Except.ok ⟨emptyStr, emptyStr⟩) := by
  refine ⟨rfl, fun now => rfl, fun t ht => ?_⟩
  have hb : (pyContains marcaInicio t && pyContains marcaFin t) = false := by
    cases hI : pyContains marcaInicio t <;> cases hF : pyContains marcaFin t <;>
      simp_all
  simp [splitFechas, hb]

/-- C2 witness: the spec's `"TBD"` example, with both markers absent. -/
theorem C2_date_splitting_witness :
    splitFechas tbdEjemplo = Except.ok ⟨emptyStr, emptyStr⟩ :=
  C2_date_splitting.2.2 tbdEjemplo (by decide)

/-- C8 counterexample: a fragment with no card-body container whose anchor
lacks an `href` attribute makes `extract_fondo_info` raise `KeyError`
(line 172, `url_element['href']`), so "does not raise any exception" fails as
a universal statement about card-body-less fragments. -/
theorem C8_missing_card_body_counterexample :
    findEl cardAnchorSinHref tagDiv (some clsCardBody) none = none ∧
    extract_fondo_info cardAnchorSinHref nowEj = Except.error PyErr.keyError :=
  ⟨rfl, rfl⟩

/-- C8 (amended): for every fragment whose card-body container is absent and
whose url lookup does not itself raise (no anchor at all, or a first anchor
carrying an href), `extract_fondo_info` returns — without raising — a record
whose beneficiary, start, end and amount fields are all the empty string. -/
theorem C8_missing_card_body (card : Html) (now u : String)
    (hc : computeUrl card = Except.ok u)
    (hcb : findEl card tagDiv (some clsCardBody) none = none) :
    ∃ r : Fondo, extract_fondo_info card now = Except.ok r ∧
      r.beneficiario = emptyStr ∧ r.inicio = emptyStr ∧ r.fin = emptyStr ∧
      r.monto = emptyStr := by
  obtain ⟨r, hr, _, h1, h2, h3, h4⟩ := extractBody_sin_card_body card now u hc hcb
  exact ⟨r, by rw [extract_eq_body, hr], h1, h2, h3, h4⟩

/-- C8 witness: the amended statement at a concrete body-less card with an
href-carrying anchor. -/
theorem C8_missing_card_body_witness :
    ∃ r : Fondo, extract_fondo_info cardSinBody nowEj = Except.ok r ∧
      r.beneficiario = emptyStr ∧ r.inicio = emptyStr ∧ r.fin = emptyStr ∧
      r.monto = emptyStr :=
  C8_missing_card_body cardSinBody nowEj urlBueno rfl rfl

/-- C10: when a fragment has no anchor at all, or its anchor's href is the
empty string, the `URL` field of a successfully extracted record is exactly
the bare base origin `https://fondos.gob.cl` — not the empty string. -/
theorem C10_default_url_is_base (card : Html) (now : String) (r : Fondo)
    (hsel : findEl card tagA none none = none ∨
      ∃ el : Html, findEl card tagA none none = some el ∧
        getAttrHref el = Except.ok emptyStr)
    (hr : extract_fondo_info card now = Except.ok r) :
    r.url = baseUrl := by
  rw [extract_eq_body] at hr
  have hc : computeUrl card = Except.ok baseUrl := by
    rcases hsel with hnone | ⟨el, hel, hhref⟩
    · unfold computeUrl
      rw [hnone]
      rfl
    · unfold computeUrl
      rw [hel]
      dsimp only
      rw [hhref]
      rfl
  exact extractBody_url card now baseUrl r hc hr

/-- C10 witness: the anchor-less concrete card extracts to a record whose url
is the bare base origin. -/
theorem C10_default_url_is_base_witness : fondoVacio.url = baseUrl :=
  C10_default_url_is_base cardSinAnchor nowEj fondoVacio (Or.inl rfl) rfl

/-- C9: a (stripped) dates text containing both `Inicio:` and `Fin:` but no
`'|'` makes the date split — and with it `extract_fondo_info` of
`fondos_scraper.py` — fail with an uncaught `IndexError`
(`fechas_split[1]`, line 203), which the driver loop propagates: the run
aborts with no further card processed and no further row written. -/
theorem C9_missing_pipe_indexerror (t : String)
    (hI : pyContains marcaInicio t = true)
    (hF : pyContains marcaFin t = true)
    (hP : pyContains pipeStr t = false)
    (hT : pyStrip t = t) :
    splitFechas t = Except.error PyErr.indexError ∧
    extract_fondo_info (cardFechasRotas t) nowEj =
      Except.error PyErr.indexError ∧
    ∀ (fetchDetail : String → Except PyErr (Nat × Html)) (rest : List Html)
      (count : Nat) (file : List Entry),
      get_fondos_loop fetchDetail nowEj (cardFechasRotas t :: rest) count file =
        (Except.error PyErr.indexError, file) := by
  have hsplit : splitFechas t = Except.error PyErr.indexError := by
    unfold splitFechas
    rw [hI, hF]
    simp only [Bool.and_self, if_true]
    rw [pySplit_no_pipe t hP]
  have hbody : extractBody (cardFechasRotas t) nowEj =
      match splitFechas (pyStrip (t ++ emptyStr)) with
      | Except.error e => Except.error e
      | Except.ok (i, f) =>
        Except.ok { url := urlBueno, estado := emptyStr, alcance := emptyStr,
                    institucion := emptyStr, nombre := emptyStr,
                    beneficiario := benefEj, inicio := i, fin := f,
                    monto := emptyStr, fecha_extraccion := nowEj } := rfl
  have hex : extract_fondo_info (cardFechasRotas t) nowEj =
      Except.error PyErr.indexError := by
    rw [extract_eq_body, hbody, append_emptyStr t, hT, hsplit]
  refine ⟨hsplit, hex, fun fetchDetail rest count file => ?_⟩
  simp only [get_fondos_loop]
  rw [hex]

/-- C9 witness: the concrete text `"Inicio: 2023-01-01 Fin: 2023-06-30"`
raises `IndexError` and aborts a one-card run with nothing written. -/
theorem C9_missing_pipe_indexerror_witness :
    splitFechas tSinPipe = Except.error PyErr.indexError ∧
    get_fondos_loop fetchNada nowEj [cardFechasRotas tSinPipe] 0 [] =
      (Except.error PyErr.indexError, []) := by
  have h := C9_missing_pipe_indexerror tSinPipe (by decide) (by decide)
    (by decide) (by decide)
  exact ⟨h.1, h.2.2 fetchNada [] 0 []⟩

/-- C1 counterexample: on a fragment whose dates paragraph breaks the split,
`extract_fondo_info` of `fondos_scraper.py` — the enriched variant the spec
designates as the system of record — propagates the `IndexError` instead of
returning null; only the superseded stable variant returns `None` there. -/
theorem C1_catch_counterexample :
    extract_fondo_info (cardFechasRotas tSinPipe) nowEj =
      Except.error PyErr.indexError ∧
    extract_fondo_info_estable (cardFechasRotas tSinPipe) nowEj = none :=
  ⟨rfl, rfl⟩

/-- C1 (amended): when extraction of a fragment fails internally, the stable
variant's `extract_fondo_info` catches the failure and returns `None`, but in
`fondos_scraper.py` the failure propagates unchanged out of
`extract_fondo_info` (its `except ValueError` merely logs and re-raises). -/
theorem C1_catch_amended (card : Html) (now : String) (e : PyErr)
    (h : extractBody card now = Except.error e) :
    extract_fondo_info card now = Except.error e ∧
    extract_fondo_info_estable card now = none := by
  constructor
  · rw [extract_eq_body, h]
  · unfold extract_fondo_info_estable
    rw [h]

/-- C1 witness: the amended statement at the concrete broken-dates card. -/
theorem C1_catch_amended_witness :
    extract_fondo_info (cardFechasRotas tSinPipe) nowEj =
      Except.error PyErr.indexError ∧
    extract_fondo_info_estable (cardFechasRotas tSinPipe) nowEj = none :=
  C1_catch_amended (cardFechasRotas tSinPipe) nowEj PyErr.indexError rfl

/-- C7: a successful detail fetch returns exactly the parsed fields; the
description defaults to `''` when its block or the block's first paragraph is
absent; the category is the first `div.me-3` block (document order) whose
label contains `'Categoría:'`, read through its `span.bg-rosa`, the scan
stopping there; and the bases link defaults to `''` when its container or any
anchor inside it is absent — the three fields independent of each other. -/
theorem C7_detail_fields_defaults :
    ∀ soup : Html,
      (∀ url : String,
        get_detail_info (fun _ => Except.ok (200, soup)) url =
          Except.ok (detail_fields soup)) ∧
      (findEl soup tagDiv (some clsDescDiv) none = none →
        (detail_fields soup).descripcion = emptyStr) ∧
      (∀ d : Html, findEl soup tagDiv (some clsDescDiv) none = some d →
        findEl d tagP none none = none →
        (detail_fields soup).descripcion = emptyStr) ∧
      ((detail_fields soup).categoria =
        match (findAllEl soup tagDiv (some clsMe3)).find? catPred with
        | none => emptyStr
        | some d => catRead d) ∧
      (findEl soup tagDiv none (some idPills) = none →
        (detail_fields soup).web = emptyStr) ∧
      (∀ d : Html, findEl soup tagDiv none (some idPills) = some d →
        findAllEl d tagA none = [] →
        (detail_fields soup).web = emptyStr) := by
  intro soup
  refine ⟨fun url => rfl, fun h => ?_, fun d hd hp => ?_,
    categoriaLoop_eq_find _, fun h => ?_, fun d hd ha => ?_⟩
  · show descripcionOf soup = emptyStr
    unfold descripcionOf
    rw [h]
  · show descripcionOf soup = emptyStr
    unfold descripcionOf
    rw [hd]
    dsimp only
    rw [hp]
  · show webBasesOf soup = emptyStr
    unfold webBasesOf
    rw [h]
  · show webBasesOf soup = emptyStr
    unfold webBasesOf
    rw [hd]
    dsimp only
    rw [ha]

/-- C4: across one run of `get_fondos` (started on an empty file), the `ID`
values of the written rows form the contiguous 1-based increasing sequence
`1, 2, …, n` — whatever the listing, the detail oracle, the timestamp, and
the content of every other field, and also when the run ends early in an
error. -/
theorem C4_sequential_ids :
    ∀ (fetchListing : Except PyErr (Nat × Html))
      (fetchDetail : String → Except PyErr (Nat × Html)) (now : String),
      idsOf (get_fondos fetchListing fetchDetail now []).2 =
        List.range' 1
          (idsOf (get_fondos fetchListing fetchDetail now []).2).length := by
  intro fl fd now
  unfold get_fondos
  cases fl with
  | error e => rfl
  | ok p =>
    obtain ⟨status, soup⟩ := p
    dsimp only
    cases hst : raise_for_status status with
    | error e => rfl
    | ok u =>
      dsimp only
      obtain ⟨m, hm⟩ :=
        get_fondos_loop_ids fd now (findAllEl soup tagDiv (some clsCardGrid)) 0 [] rfl
      rw [hm, List.length_range']

/-- C3: when the detail fetch for one record answers a non-2xx status (while
every earlier record extracted and enriched cleanly), `get_detail_info`
raises a transport error that the driver loop does not suppress: the run ends
with that error, the file holds exactly the rows written before that point,
and no further row is ever written. -/
theorem C3_transport_error_aborts :
    ∀ (fetchDetail : String → Except PyErr (Nat × Html)) (now : String)
      (c : Html) (post : List Html) (status : Nat) (pre : List Html),
      (∀ card ∈ pre, ∃ (r : Fondo) (st : Nat) (page : Html),
        extract_fondo_info card now = Except.ok r ∧
        fetchDetail r.url = Except.ok (st, page) ∧ 200 ≤ st ∧ st ≤ 299) →
      (∃ (rc : Fondo) (page : Html),
        extract_fondo_info c now = Except.ok rc ∧
        fetchDetail rc.url = Except.ok (status, page)) →
      ¬(200 ≤ status ∧ status ≤ 299) →
      ∀ (count : Nat) (file : List Entry),
        get_fondos_loop fetchDetail now (pre ++ c :: post) count file =
          (Except.error (PyErr.transportError status),
            (get_fondos_loop fetchDetail now pre count file).2) := by
  intro fd now c post status pre
  induction pre with
  | nil =>
    intro _ hc hbad count file
    obtain ⟨rc, page, hex, hfetch⟩ := hc
    have hdet : get_detail_info fd rc.url =
        Except.error (PyErr.transportError status) := by
      unfold get_detail_info
      rw [hfetch]
      dsimp only
      unfold raise_for_status
      rw [if_neg hbad]
    simp only [List.nil_append, get_fondos_loop]
    rw [hex]
    dsimp only
    rw [hdet]
  | cons p pre' ih =>
    intro hpre hc hbad count file
    obtain ⟨r, st, page, hex, hfetch, h1, h2⟩ := hpre p (List.mem_cons_self _ _)
    have hdet : get_detail_info fd r.url = Except.ok (detail_fields page) := by
      unfold get_detail_info
      rw [hfetch]
      dsimp only
      unfold raise_for_status
      rw [if_pos ⟨h1, h2⟩]
    have hpre' : ∀ card ∈ pre', ∃ (r : Fondo) (st : Nat) (page : Html),
        extract_fondo_info card now = Except.ok r ∧
        fd r.url = Except.ok (st, page) ∧ 200 ≤ st ∧ st ≤ 299 :=
      fun card hm => hpre card (List.mem_cons_of_mem _ hm)
    simp only [List.cons_append, get_fondos_loop]
    rw [hex]
    dsimp only
    rw [hdet]
    dsimp only
    exact ih hpre' hc hbad _ _

/-- C3 witness: a two-card run where the first detail fetch answers 200 and
the second answers 500 ends in a transport error with the file exactly as it
stood after the first record. -/
theorem C3_transport_error_aborts_witness :
    get_fondos_loop fetchDemo nowEj [cardEjemplo, cardMalo] 0 [] =
      (Except.error (PyErr.transportError 500),
        (get_fondos_loop fetchDemo nowEj [cardEjemplo] 0 []).2) := by
  have h := C3_transport_error_aborts fetchDemo nowEj cardMalo [] 500 [cardEjemplo]
    (by
      intro card hm
      have hcard : card = cardEjemplo := by simpa using hm
      subst hcard
      exact ⟨fondoEjemplo nowEj, 200, paginaVacia, rfl, rfl, by decide, by decide⟩)
    ⟨fondoMalo, paginaVacia, rfl, rfl⟩
    (by decide)
  exact h 0 []

/-- C7 witness: on an empty detail page all three fields are empty, and a
200-status fetch of it succeeds with exactly those fields. -/
theorem C7_detail_fields_defaults_witness :
    get_detail_info (fun _ => Except.ok (200, paginaVacia)) urlBueno =
      Except.ok (detail_fields paginaVacia) ∧
    (detail_fields paginaVacia).descripcion = emptyStr ∧
    (detail_fields paginaVacia).categoria = emptyStr ∧
    (detail_fields paginaVacia).web = emptyStr := by
  have h := C7_detail_fields_defaults paginaVacia
  refine ⟨h.1 urlBueno, h.2.1 rfl, ?_, h.2.2.2.2.1 rfl⟩
  rw [h.2.2.2.1]
  rfl

end Fondos
